import Mathlib

/-!
Shallow embedding of the offline-first task sync engine
(`src/services/syncService.ts`, `src/services/taskService.ts`).

Timestamps are modelled as `Nat` (milliseconds since epoch, the value of
`Date.getTime()`).  The SQLite database is modelled as an explicit state
record holding the `tasks` and `sync_queue` tables as lists of rows.
Each JavaScript `new Date()` call made during one run is modelled by a
single `now` parameter.  The network boundary (axios) is modelled by a
`Bool` connectivity answer and, per batch index, a `BatchOutcome` that is
either a wholesale transport error or a structural response.
-/

namespace SyncSpec

/-- Task sync status: the string union of pending, synced and error. -/
inductive SyncStatus where
  | pending
  | synced
  | error
deriving DecidableEq, Repr

/-- Queue operation kind: the string union of create, update and delete. -/
inductive Operation where
  | create
  | update
  | delete
deriving DecidableEq, Repr

/-- A row of the `tasks` table (the `Task` interface). -/
structure Task where
  id : String
  title : String
  description : Option String
  completed : Bool
  created_at : Nat
  updated_at : Nat
  is_deleted : Bool
  sync_status : SyncStatus
  server_id : Option String
  last_synced_at : Option Nat
  error_message : Option String
deriving DecidableEq, Repr

/-- A row of the `sync_queue` table (the `SyncQueueItem` interface);
`data` is the task-snapshot payload stored as JSON in the source. -/
structure SyncQueueItem where
  id : String
  task_id : String
  operation : Operation
  data : Task
  created_at : Nat
  retry_count : Nat
  error_message : Option String
deriving DecidableEq, Repr

/-- The database state: the two tables the sync engine touches. -/
structure DBState where
  tasks : List Task
  sync_queue : List SyncQueueItem
deriving DecidableEq, Repr

/-- One entry of the `errors` array of a `SyncResult`. -/
structure SyncError where
  task_id : String
  operation : String
  error : String
  timestamp : Nat
deriving DecidableEq, Repr

/-- The `SyncResult` returned by `SyncService.sync`. -/
structure SyncResult where
  success : Bool
  synced_items : Nat
  failed_items : Nat
  errors : List SyncError
deriving DecidableEq, Repr

/-- Per-item verdict status in a `BatchSyncResponse`. -/
inductive ItemStatus where
  | success
  | conflict
  | error
deriving DecidableEq, Repr

/-- One element of `BatchSyncResponse.processed_items`. -/
structure ProcessedItem where
  client_id : String
  server_id : Option String
  status : ItemStatus
  resolved_data : Option Task
  error : Option String
deriving DecidableEq, Repr

/-- Outcome of one `axios.post` batch submission: either the promise
rejects (network error / 30s timeout) or a structural response arrives. -/
inductive BatchOutcome where
  | transportError (msg : String)
  | response (processed_items : List ProcessedItem)
deriving Repr

/-- The mutable accumulator of the batch loop in `SyncService.sync`:
the database plus the local variables `syncedItems`, `failedItems`,
`errors`. -/
structure RunAcc where
  db : DBState
  syncedItems : Nat
  failedItems : Nat
  errors : List SyncError
deriving Repr

/-- JavaScript `s || dflt` for a string `s` (empty string is falsy). -/
def jsOr (s : String) (dflt : String) : String :=
  if s = "" then dflt else s

/-- JavaScript `x || dflt` for a possibly-absent string `x`. -/
def jsOrOpt (x : Option String) (dflt : String) : String :=
  match x with
  | some s => jsOr s dflt
  | none => dflt

/-- String form of an operation, as serialized to a result entry. -/
def opString : Operation → String
  | .create => "create"
  | .update => "update"
  | .delete => "delete"

/-- Model of `TaskService.getTask`:
`SELECT * FROM tasks WHERE id = ? AND is_deleted = 0`. -/
def getTask (db : DBState) (id : String) : Option Task :=
  db.tasks.find? (fun t => t.id == id && !t.is_deleted)

/-- Model of `SyncService.resolveConflict`: last-write-wins on `updated_at`;
the local version wins only on a strictly greater timestamp. -/
def resolveConflict (localTask serverTask : Task) : Task :=
  if localTask.updated_at > serverTask.updated_at then localTask else serverTask

/-- Row effect of the `UPDATE tasks SET sync_status, last_synced_at
[, server_id] WHERE id = ?` statement in `SyncService.updateSyncStatus`;
the `server_id` column is added only under the JS truthiness guard
`if (serverData?.server_id)`, which skips an absent and also an empty
server id (the empty string is falsy). -/
def updSyncTaskRow (taskId : String) (status : SyncStatus)
    (serverData : Option Task) (now : Nat) (t : Task) : Task :=
  if t.id == taskId then
    let t' := { t with sync_status := status, last_synced_at := some now }
    match serverData with
    | some sd =>
      match sd.server_id with
      | some sid => if sid = "" then t' else { t' with server_id := some sid }
      | none => t'
    | none => t'
  else t

/-- Model of `SyncService.updateSyncStatus`: update the `sync_status`
and `last_synced_at` of the task row (plus `server_id` when the server
data carries one),
then, when the status is `synced`, `DELETE FROM sync_queue WHERE task_id = ?`. -/
def updateSyncStatus (db : DBState) (taskId : String) (status : SyncStatus)
    (serverData : Option Task) (now : Nat) : DBState :=
  let tasks' := db.tasks.map (updSyncTaskRow taskId status serverData now)
  let queue' :=
    if status = SyncStatus.synced then
      db.sync_queue.filter (fun q => q.task_id != taskId)
    else
      db.sync_queue
  { tasks := tasks', sync_queue := queue' }

/-- Row effect of the `UPDATE sync_queue SET retry_count, error_message
WHERE id = ?` statement in `SyncService.handleSyncError`. -/
def bumpRetryRow (item : SyncQueueItem) (errorMessage : String)
    (q : SyncQueueItem) : SyncQueueItem :=
  if q.id == item.id then
    { q with retry_count := item.retry_count + 1, error_message := some errorMessage }
  else q

/-- Row effect of the `UPDATE tasks SET sync_status, error_message
WHERE id = ?` statement in the max-retries branch of
`SyncService.handleSyncError`. -/
def markTaskErrorRow (taskId : String) (errorMessage : String) (t : Task) : Task :=
  if t.id == taskId then
    { t with sync_status := SyncStatus.error,
             error_message := some ("Max retries exceeded: " ++ errorMessage) }
  else t

/-- Model of `SyncService.handleSyncError`: set the `retry_count` of the
queue row to
`item.retry_count + 1` and store the error text; when the new counter
reaches 3, additionally mark the owning task `error` with a
`Max retries exceeded` message and delete the queue row. -/
def handleSyncError (db : DBState) (item : SyncQueueItem) (msg : String) : DBState :=
  let retryCount := item.retry_count + 1
  let errorMessage := jsOr msg "Unknown error"
  let queue' := db.sync_queue.map (bumpRetryRow item errorMessage)
  if retryCount ≥ 3 then
    { tasks := db.tasks.map (markTaskErrorRow item.task_id errorMessage),
      sync_queue := queue'.filter (fun q => q.id != item.id) }
  else
    { tasks := db.tasks, sync_queue := queue' }

/-- The response post-processing inside `SyncService.processBatch`:
every `conflict` verdict whose local task exists and whose response
carries resolved data is converted to `success`, with the winner picked
by the conflict resolver as resolved data. -/
def processResponseItems (db : DBState) (processed : List ProcessedItem) :
    List ProcessedItem :=
  processed.map (fun item =>
    if item.status = ItemStatus.conflict then
      match getTask db item.client_id, item.resolved_data with
      | some localTask, some serverTask =>
        { item with resolved_data := some (resolveConflict localTask serverTask),
                    status := ItemStatus.success }
      | _, _ => item
    else item)

/-- One iteration of the per-item loop of `sync` over a batch response.
The non-success branch dereferences
`batch.find(b => b.task_id === item.client_id)!`; when that lookup
misses, the JavaScript throws (caught by the surrounding batch `catch`),
modelled by `Except.error`. -/
def applyProcessedItem (now : Nat) (batch : List SyncQueueItem) (acc : RunAcc)
    (item : ProcessedItem) : Except String RunAcc :=
  if item.status = ItemStatus.success then
    Except.ok { acc with
      db := updateSyncStatus acc.db item.client_id SyncStatus.synced item.resolved_data now,
      syncedItems := acc.syncedItems + 1 }
  else
    match batch.find? (fun b => b.task_id == item.client_id) with
    | some b =>
      let msg := jsOrOpt item.error "Sync failed"
      Except.ok { acc with
        db := handleSyncError acc.db b msg,
        failedItems := acc.failedItems + 1,
        errors := acc.errors ++ [{ task_id := item.client_id,
                                   operation := opString b.operation,
                                   error := msg,
                                   timestamp := now }] }
    | none => Except.error "Cannot read properties of undefined"

/-- The per-item loop of `sync` over the processed items of one batch;
on a thrown
error the partially-updated accumulator is surfaced together with the
error message (the JavaScript `catch` then takes over). -/
def applyBatchItems (now : Nat) (batch : List SyncQueueItem) :
    RunAcc → List ProcessedItem → RunAcc × Option String
  | acc, [] => (acc, none)
  | acc, item :: rest =>
    match applyProcessedItem now batch acc item with
    | Except.ok acc' => applyBatchItems now batch acc' rest
    | Except.error e => (acc, some e)

/-- The `catch` branch of `sync`: a wholesale batch failure runs
`handleSyncError` for every item of the batch, counts each as failed and
appends one error entry per item. -/
def handleBatchFailure (now : Nat) (batch : List SyncQueueItem) (msg : String)
    (acc : RunAcc) : RunAcc :=
  batch.foldl (fun a item =>
    { a with
      db := handleSyncError a.db item msg,
      failedItems := a.failedItems + 1,
      errors := a.errors ++ [{ task_id := item.task_id,
                               operation := opString item.operation,
                               error := msg,
                               timestamp := now }] }) acc

/-- Fuel-indexed batching loop of `sync`
(`for (let i = 0; i < items.length; i += BATCH_SIZE) batches.push(items.slice(i, i + BATCH_SIZE))`);
fuel bounds the recursion, `chunkList` supplies enough of it. -/
def chunksAux (n : Nat) : Nat → List α → List (List α)
  | 0, _ => []
  | _, [] => []
  | fuel + 1, x :: xs => (x :: xs).take n :: chunksAux n fuel ((x :: xs).drop n)

/-- Partition a list into consecutive chunks of size at most `n`. -/
def chunkList (n : Nat) (l : List α) : List (List α) :=
  chunksAux n l.length l

/-- The pending-item read of `sync`:
`SELECT * FROM sync_queue WHERE retry_count < 3 ORDER BY created_at ASC`. -/
def pendingItems (db : DBState) : List SyncQueueItem :=
  (db.sync_queue.filter (fun q => q.retry_count < 3)).insertionSort
    (fun a b => a.created_at ≤ b.created_at)

/-- The sequential batch loop of `sync`: each batch is submitted
(outcome given by the transport at the index of the batch), a structural
response goes through conflict post-processing and the per-item loop, and
any thrown error (wholesale transport failure, or a throw inside the
per-item loop) sends the whole batch through `handleBatchFailure`. -/
def runBatches (now : Nat) (outcomes : Nat → BatchOutcome) :
    Nat → RunAcc → List (List SyncQueueItem) → RunAcc
  | _, acc, [] => acc
  | i, acc, batch :: rest =>
    let acc' :=
      match outcomes i with
      | BatchOutcome.transportError msg => handleBatchFailure now batch msg acc
      | BatchOutcome.response resp =>
        let processed := processResponseItems acc.db resp
        match applyBatchItems now batch acc processed with
        | (acc'', none) => acc''
        | (acc'', some e) => handleBatchFailure now batch e acc''
    runBatches now outcomes (i + 1) acc' rest

/-- Model of `SyncService.sync`: probe connectivity, short-circuit when
offline,
read the pending items, partition them into batches and drain them
sequentially, returning the aggregate result and the final database. -/
def sync (db : DBState) (isOnline : Bool) (outcomes : Nat → BatchOutcome)
    (batchSize : Nat) (now : Nat) : SyncResult × DBState :=
  if isOnline = false then
    ({ success := false, synced_items := 0, failed_items := 0,
       errors := [{ task_id := "", operation := "sync",
                    error := "Server is not reachable", timestamp := now }] }, db)
  else
    let syncQueueItems := pendingItems db
    if syncQueueItems.length = 0 then
      ({ success := true, synced_items := 0, failed_items := 0, errors := [] }, db)
    else
      let batches := chunkList batchSize syncQueueItems
      let acc := runBatches now outcomes 0
        { db := db, syncedItems := 0, failedItems := 0, errors := [] } batches
      ({ success := acc.failedItems == 0, synced_items := acc.syncedItems,
         failed_items := acc.failedItems, errors := acc.errors }, acc.db)

/-- Modelled from the spec: the `sync_queue` schema lives in
`src/db/database.ts`, which is not part of the provided sources; the spec
fixes the retry counter of a fresh queue item at 0 ("retry counter
(starts at 0)"), which is the column default the `TaskService` inserts
rely on. -/
def defaultRetryCount : Nat := 0

/-- Fields a `TaskService.createTask` call may supply
(`taskData: Partial<Task>`; the routes validate `title` as required). -/
structure TaskInput where
  title : String
  description : Option String
  completed : Option Bool
deriving DecidableEq, Repr

/-- Fields a `TaskService.updateTask` call may supply
(`updates: Partial<Task>` restricted to the validated fields). -/
structure TaskUpdates where
  title : Option String
  description : Option String
  completed : Option Bool
deriving DecidableEq, Repr

/-- Model of `TaskService.createTask`: build the task (sync status
pending,
fresh timestamps), insert it, and enqueue one `create` item whose payload
is the full task snapshot.  `newTaskId`/`newQueueId` stand for the two
`uuidv4()` calls. -/
def createTask (db : DBState) (taskData : TaskInput)
    (newTaskId newQueueId : String) (now : Nat) : DBState × Task :=
  let task : Task :=
    { id := newTaskId
      title := taskData.title
      description := taskData.description
      completed := taskData.completed.getD false
      created_at := now
      updated_at := now
      is_deleted := false
      sync_status := SyncStatus.pending
      server_id := none
      last_synced_at := none
      error_message := none }
  let item : SyncQueueItem :=
    { id := newQueueId, task_id := task.id, operation := Operation.create,
      data := task, created_at := now, retry_count := defaultRetryCount,
      error_message := none }
  ({ tasks := db.tasks ++ [task], sync_queue := db.sync_queue ++ [item] }, task)

/-- Model of `TaskService.updateTask`: merge the updates over the
existing task,
stamp `updated_at` and mark the sync status pending, write back the row
(`SET title, description, completed, updated_at, sync_status`), and
enqueue one `update` item whose payload is the merged task. -/
def updateTask (db : DBState) (id : String) (updates : TaskUpdates)
    (newQueueId : String) (now : Nat) : DBState × Option Task :=
  match getTask db id with
  | none => (db, none)
  | some existingTask =>
    let updatedTask : Task :=
      { existingTask with
        title := updates.title.getD existingTask.title
        description :=
          match updates.description with
          | some d => some d
          | none => existingTask.description
        completed := updates.completed.getD existingTask.completed
        updated_at := now
        sync_status := SyncStatus.pending }
    let tasks' := db.tasks.map (fun t =>
      if t.id == id then
        { t with title := updatedTask.title, description := updatedTask.description,
                 completed := updatedTask.completed, updated_at := now,
                 sync_status := SyncStatus.pending }
      else t)
    let item : SyncQueueItem :=
      { id := newQueueId, task_id := id, operation := Operation.update,
        data := updatedTask, created_at := now, retry_count := defaultRetryCount,
        error_message := none }
    ({ tasks := tasks', sync_queue := db.sync_queue ++ [item] }, some updatedTask)

/-- Model of `TaskService.deleteTask`: soft delete — set `is_deleted`,
stamp `updated_at` and mark the sync status pending on the row, and
enqueue one
`delete` item whose payload is the prior task snapshot with
`is_deleted: true`; the row itself is never removed. -/
def deleteTask (db : DBState) (id : String) (newQueueId : String) (now : Nat) :
    DBState × Bool :=
  match getTask db id with
  | none => (db, false)
  | some task =>
    let tasks' := db.tasks.map (fun t =>
      if t.id == id then
        { t with is_deleted := true, updated_at := now,
                 sync_status := SyncStatus.pending }
      else t)
    let item : SyncQueueItem :=
      { id := newQueueId, task_id := id, operation := Operation.delete,
        data := { task with is_deleted := true }, created_at := now,
        retry_count := defaultRetryCount, error_message := none }
    ({ tasks := tasks', sync_queue := db.sync_queue ++ [item] }, true)

/-- An empty database, for concrete scenarios. -/
def emptyDb : DBState := { tasks := [], sync_queue := [] }

/-- A baseline task used in concrete scenarios. -/
def taskA : Task :=
  { id := "task_a", title := "Local Update", description := none,
    completed := false, created_at := 100, updated_at := 1000,
    is_deleted := false, sync_status := SyncStatus.pending,
    server_id := none, last_synced_at := none, error_message := none }

/-- The server-side version of `taskA` in the conflict scenario: newer
timestamp (5000 > 1000), different title. -/
def taskAServer : Task :=
  { taskA with
    title := "Server Update", updated_at := 5000,
    sync_status := SyncStatus.synced, server_id := some "srv_1" }

/-- A version of `taskA` with the same timestamp but a different title,
for the tie-break scenario. -/
def taskATie : Task := { taskA with title := "Server Tie" }

/-- Server data carrying an empty-string `server_id`, which the JS
truthiness guard in `updateSyncStatus` skips. -/
def taskAServerEmptyId : Task := { taskAServer with server_id := some "" }

/-- The queued `update` mutation for `taskA`. -/
def queueItemA : SyncQueueItem :=
  { id := "sync_1", task_id := "task_a", operation := Operation.update,
    data := taskA, created_at := 2000, retry_count := 0, error_message := none }

/-- Database holding `taskA` with its queued update. -/
def dbA : DBState := { tasks := [taskA], sync_queue := [queueItemA] }

/-- Transport behavior reporting a conflict for `taskA` with the newer
server version attached. -/
def conflictOutcomes : Nat → BatchOutcome := fun _ =>
  BatchOutcome.response
    [{ client_id := "task_a", server_id := some "srv_1",
       status := ItemStatus.conflict, resolved_data := some taskAServer,
       error := none }]

/-- Variant of `queueItemA` already at retry count 2: one more failure
reaches the maximum of 3. -/
def queueItemAMax : SyncQueueItem := { queueItemA with retry_count := 2 }

/-- Database holding `taskA` with its queued update at retry count 2. -/
def dbAMax : DBState := { tasks := [taskA], sync_queue := [queueItemAMax] }

/-- The queue-health invariant of the retry bookkeeping: no stored queue
row has a retry counter at or above the maximum of 3. -/
def retryInv (db : DBState) : Prop :=
  ∀ q ∈ db.sync_queue, q.retry_count < 3

instance (db : DBState) : Decidable (retryInv db) := by
  unfold retryInv
  infer_instance

/-- C1: evaluation of the sync run at the conflict scenario (local
timestamp 1000 strictly below server timestamp 5000): the queue entry is
removed and the task ends `synced`, but the stored title is still the
local one (Local Update), not the server one (Server Update) — the
success path (`updateSyncStatus`) never writes the content fields of the
resolved data back to the task row. -/
theorem sync_conflict_keeps_local_title :
    (sync dbA true conflictOutcomes 50 9000).2.sync_queue = [] ∧
    (sync dbA true conflictOutcomes 50 9000).2.tasks.map Task.sync_status
      = [SyncStatus.synced] ∧
    (sync dbA true conflictOutcomes 50 9000).2.tasks.map Task.title
      = ["Local Update"] ∧
    taskAServer.title = "Server Update" ∧
    "Local Update" ≠ "Server Update" := by
  decide

/-- C2: running sync when the remote peer is unreachable returns
`success=false`, zero synced and failed counts, and exactly the single
synthetic unreachability error, and returns the database unchanged (no
retry counter advanced, no queue item removed). -/
theorem sync_unreachable_untouched (db : DBState) (outcomes : Nat → BatchOutcome)
    (batchSize now : Nat) :
    sync db false outcomes batchSize now =
      ({ success := false, synced_items := 0, failed_items := 0,
         errors := [{ task_id := "", operation := "sync",
                      error := "Server is not reachable", timestamp := now }] },
       db) := rfl

/-- C5: the conflict resolver returns the local version on a strictly
greater local timestamp, the server version on a strictly greater server
timestamp, and is a deterministic function of its two inputs (identical
input pairs yield identical winners). -/
theorem resolveConflict_last_write_wins (localTask serverTask : Task) :
    (localTask.updated_at > serverTask.updated_at →
      resolveConflict localTask serverTask = localTask) ∧
    (serverTask.updated_at > localTask.updated_at →
      resolveConflict localTask serverTask = serverTask) ∧
    (∀ l s : Task, l = localTask → s = serverTask →
      resolveConflict l s = resolveConflict localTask serverTask) := by
  refine ⟨fun h => ?_, fun h => ?_, fun l s hl hs => by rw [hl, hs]⟩
  · simp [resolveConflict, h]
  · simp [resolveConflict, Nat.lt_asymm h]

/-- C5 witness: both strict directions and determinism at concrete tasks. -/
theorem resolveConflict_last_write_wins_witness :
    resolveConflict taskAServer taskA = taskAServer ∧
    resolveConflict taskA taskAServer = taskAServer ∧
    resolveConflict taskA taskAServer = resolveConflict taskA taskAServer :=
  ⟨(resolveConflict_last_write_wins taskAServer taskA).1 (by decide),
   (resolveConflict_last_write_wins taskA taskAServer).2.1 (by decide),
   (resolveConflict_last_write_wins taskA taskAServer).2.2 taskA taskAServer rfl rfl⟩

/-- C10: on exactly equal local and server timestamps the conflict
resolver returns the server version. -/
theorem resolveConflict_tie_server_wins (localTask serverTask : Task)
    (h : localTask.updated_at = serverTask.updated_at) :
    resolveConflict localTask serverTask = serverTask := by
  simp [resolveConflict, h]

/-- C10 witness: tie at timestamp 1000 resolved in favor of the server. -/
theorem resolveConflict_tie_server_wins_witness :
    resolveConflict taskA taskATie = taskATie :=
  resolveConflict_tie_server_wins taskA taskATie (by decide)

/-- C7: on the reachable path the success flag of the result is true iff
its
failed count is zero; with no pending items the run returns the trivial
successful empty result and the database unchanged. -/
theorem sync_success_iff_no_failures (db : DBState) (outcomes : Nat → BatchOutcome)
    (batchSize now : Nat) :
    ((sync db true outcomes batchSize now).1.success = true ↔
      (sync db true outcomes batchSize now).1.failed_items = 0) ∧
    (pendingItems db = [] →
      sync db true outcomes batchSize now =
        ({ success := true, synced_items := 0, failed_items := 0, errors := [] },
         db)) := by
  by_cases h : pendingItems db = []
  · simp [sync, h]
  · simp [sync, h, List.length_eq_zero]

/-- C7 witness: the empty database has no pending items and syncs to the
trivial successful result. -/
theorem sync_success_iff_no_failures_witness :
    (sync emptyDb true conflictOutcomes 50 0).1.success = true ∧
    sync emptyDb true conflictOutcomes 50 0 =
      ({ success := true, synced_items := 0, failed_items := 0, errors := [] },
       emptyDb) := by
  refine ⟨(sync_success_iff_no_failures emptyDb conflictOutcomes 50 0).1.mpr (by decide),
          (sync_success_iff_no_failures emptyDb conflictOutcomes 50 0).2 (by decide)⟩

/-- Branch unfolding of `handleSyncError` below the retry maximum: only
the queue row is rewritten, tasks are untouched. -/
theorem handleSyncError_of_lt (db : DBState) (item : SyncQueueItem) (msg : String)
    (h : item.retry_count + 1 < 3) :
    handleSyncError db item msg =
      { tasks := db.tasks,
        sync_queue := db.sync_queue.map (bumpRetryRow item (jsOr msg "Unknown error")) } := by
  simp only [handleSyncError]
  rw [if_neg (by omega)]

/-- Branch unfolding of `handleSyncError` at the retry maximum: the
owning task is marked errored and the queue row is deleted. -/
theorem handleSyncError_of_ge (db : DBState) (item : SyncQueueItem) (msg : String)
    (h : item.retry_count + 1 ≥ 3) :
    handleSyncError db item msg =
      { tasks := db.tasks.map (markTaskErrorRow item.task_id (jsOr msg "Unknown error")),
        sync_queue := (db.sync_queue.map (bumpRetryRow item (jsOr msg "Unknown error"))).filter
          (fun q => q.id != item.id) } := by
  simp only [handleSyncError]
  rw [if_pos h]

/-- The function `updateSyncStatus` only ever removes queue rows, so it
preserves the retry-counter bound. -/
theorem retryInv_updateSyncStatus (db : DBState) (taskId : String) (status : SyncStatus)
    (serverData : Option Task) (now : Nat) (h : retryInv db) :
    retryInv (updateSyncStatus db taskId status serverData now) := by
  intro q hq
  have hq' : q ∈ (if status = SyncStatus.synced then
      db.sync_queue.filter (fun q => q.task_id != taskId) else db.sync_queue) := hq
  by_cases hs : status = SyncStatus.synced
  · rw [if_pos hs] at hq'
    exact h q (List.mem_of_mem_filter hq')
  · rw [if_neg hs] at hq'
    exact h q hq'

/-- The function `handleSyncError` preserves the retry-counter bound: a
row bumped
below the maximum stays below it, and a row bumped to the maximum is
deleted. -/
theorem retryInv_handleSyncError (db : DBState) (item : SyncQueueItem) (msg : String)
    (h : retryInv db) : retryInv (handleSyncError db item msg) := by
  by_cases hr : item.retry_count + 1 ≥ 3
  · rw [handleSyncError_of_ge db item msg hr]
    intro q hq
    obtain ⟨hq1, hq2⟩ := List.mem_filter.mp hq
    obtain ⟨q0, hq0, rfl⟩ := List.mem_map.mp hq1
    by_cases hid : q0.id = item.id
    · exfalso
      simp [bumpRetryRow, hid] at hq2
    · simp only [bumpRetryRow]
      rw [if_neg (by simp [hid])]
      exact h q0 hq0
  · rw [handleSyncError_of_lt db item msg (by omega)]
    intro q hq
    obtain ⟨q0, hq0, rfl⟩ := List.mem_map.mp hq
    by_cases hid : q0.id = item.id
    · simp [bumpRetryRow, hid]
      omega
    · simp only [bumpRetryRow]
      rw [if_neg (by simp [hid])]
      exact h q0 hq0

/-- One step of the per-item verdict loop preserves the retry-counter
bound. -/
theorem retryInv_applyProcessedItem (now : Nat) (batch : List SyncQueueItem)
    (acc acc' : RunAcc) (it : ProcessedItem)
    (happ : applyProcessedItem now batch acc it = Except.ok acc')
    (h : retryInv acc.db) : retryInv acc'.db := by
  unfold applyProcessedItem at happ
  by_cases hs : it.status = ItemStatus.success
  · rw [if_pos hs] at happ
    injection happ with heq
    subst heq
    exact retryInv_updateSyncStatus _ _ _ _ _ h
  · rw [if_neg hs] at happ
    cases hfind : batch.find? (fun b => b.task_id == it.client_id) with
    | none => rw [hfind] at happ; cases happ
    | some b =>
      rw [hfind] at happ
      injection happ with heq
      subst heq
      exact retryInv_handleSyncError _ _ _ h

/-- The per-item verdict loop over a whole batch preserves the
retry-counter bound. -/
theorem retryInv_applyBatchItems (now : Nat) (batch : List SyncQueueItem) :
    ∀ (processed : List ProcessedItem) (acc : RunAcc), retryInv acc.db →
      retryInv (applyBatchItems now batch acc processed).1.db := by
  intro processed
  induction processed with
  | nil => intro acc h; exact h
  | cons it rest ih =>
    intro acc h
    unfold applyBatchItems
    cases happ : applyProcessedItem now batch acc it with
    | ok acc' => exact ih acc' (retryInv_applyProcessedItem now batch acc acc' it happ h)
    | error e => exact h

/-- The wholesale batch-failure handler preserves the retry-counter
bound. -/
theorem retryInv_handleBatchFailure (now : Nat) (msg : String) :
    ∀ (batch : List SyncQueueItem) (acc : RunAcc), retryInv acc.db →
      retryInv (handleBatchFailure now batch msg acc).db := by
  intro batch
  induction batch with
  | nil => intro acc h; exact h
  | cons item rest ih =>
    intro acc h
    unfold handleBatchFailure
    rw [List.foldl_cons]
    exact ih _ (retryInv_handleSyncError _ _ _ h)

/-- The sequential batch loop preserves the retry-counter bound. -/
theorem retryInv_runBatches (now : Nat) (outcomes : Nat → BatchOutcome) :
    ∀ (batches : List (List SyncQueueItem)) (i : Nat) (acc : RunAcc),
      retryInv acc.db → retryInv (runBatches now outcomes i acc batches).db := by
  intro batches
  induction batches with
  | nil => intro i acc h; exact h
  | cons batch rest ih =>
    intro i acc h
    have hstep : runBatches now outcomes i acc (batch :: rest) =
        runBatches now outcomes (i + 1)
          (match outcomes i with
           | BatchOutcome.transportError msg => handleBatchFailure now batch msg acc
           | BatchOutcome.response resp =>
             match applyBatchItems now batch acc (processResponseItems acc.db resp) with
             | (acc'', none) => acc''
             | (acc'', some e) => handleBatchFailure now batch e acc'') rest := rfl
    rw [hstep]
    cases houtcome : outcomes i with
    | transportError msg =>
      exact ih _ _ (retryInv_handleBatchFailure now msg batch acc h)
    | response resp =>
      show retryInv (runBatches now outcomes (i + 1)
        (match applyBatchItems now batch acc (processResponseItems acc.db resp) with
         | (acc'', none) => acc''
         | (acc'', some e) => handleBatchFailure now batch e acc'') rest).db
      cases happ : applyBatchItems now batch acc (processResponseItems acc.db resp) with
      | mk acc'' opt =>
        have hacc'' : retryInv acc''.db := by
          have hb := retryInv_applyBatchItems now batch (processResponseItems acc.db resp) acc h
          rw [happ] at hb
          exact hb
        cases opt with
        | none => exact ih _ _ hacc''
        | some e => exact ih _ _ (retryInv_handleBatchFailure now e batch acc'' hacc'')

/-- C4: recording a failure on a queue item bumps the stored retry
counter by exactly one and stores the error text; when the new counter
reaches the maximum of 3, the owning task is marked `error` with a
descriptive message and the item is deleted from the queue; consequently
a sync run preserves the invariant that no stored queue row has a retry
counter at or above 3. -/
theorem recordFailure_retry_semantics (db : DBState) (item : SyncQueueItem)
    (msg : String) (isOnline : Bool) (outcomes : Nat → BatchOutcome) (n now : Nat) :
    (∀ q ∈ db.sync_queue, q.id = item.id → q.retry_count = item.retry_count →
      item.retry_count + 1 < 3 →
        { q with retry_count := q.retry_count + 1,
                 error_message := some (jsOr msg "Unknown error") }
          ∈ (handleSyncError db item msg).sync_queue) ∧
    (item.retry_count + 1 ≥ 3 →
      (∀ q' ∈ (handleSyncError db item msg).sync_queue, q'.id ≠ item.id) ∧
      (∀ t ∈ db.tasks, t.id = item.task_id →
        { t with sync_status := SyncStatus.error,
                 error_message :=
                   some ("Max retries exceeded: " ++ jsOr msg "Unknown error") }
          ∈ (handleSyncError db item msg).tasks)) ∧
    (retryInv db → retryInv (sync db isOnline outcomes n now).2) := by
  refine ⟨?_, fun hge => ⟨?_, ?_⟩, ?_⟩
  · intro q hq hid hrc hlt
    rw [handleSyncError_of_lt db item msg hlt]
    refine List.mem_map.mpr ⟨q, hq, ?_⟩
    simp [bumpRetryRow, hid, hrc]
  · intro q' hq'
    rw [handleSyncError_of_ge db item msg hge] at hq'
    have h2 := (List.mem_filter.mp hq').2
    simpa using h2
  · intro t ht hid
    rw [handleSyncError_of_ge db item msg hge]
    refine List.mem_map.mpr ⟨t, ht, ?_⟩
    simp [markTaskErrorRow, hid]
  · intro hinv
    by_cases ho : isOnline = false
    · simp only [sync]
      rw [if_pos ho]
      exact hinv
    · by_cases hlen : (pendingItems db).length = 0
      · simp only [sync]
        rw [if_neg ho, if_pos hlen]
        exact hinv
      · simp only [sync]
        rw [if_neg ho, if_neg hlen]
        exact retryInv_runBatches now outcomes _ 0 _ hinv

/-- C4 witness: a failure at retry count 0 stores the bumped row; a run
over the database whose single queue row is at retry count 2 ends with
every remaining row below 3. -/
theorem recordFailure_retry_semantics_witness :
    ({ queueItemA with retry_count := queueItemA.retry_count + 1,
                       error_message := some (jsOr "boom" "Unknown error") }
        ∈ (handleSyncError dbA queueItemA "boom").sync_queue) ∧
    retryInv (sync dbAMax true conflictOutcomes 50 0).2 :=
  ⟨(recordFailure_retry_semantics dbA queueItemA "boom" true conflictOutcomes 50 0).1
      queueItemA (by decide) rfl rfl (by decide),
   (recordFailure_retry_semantics dbAMax queueItemAMax "boom" true conflictOutcomes 50 0).2.2
      (by decide)⟩

/-- In a list with pairwise-distinct ids, `find?` on the id of a member
returns exactly that member. -/
theorem find?_id_of_pairwise (l : List SyncQueueItem)
    (hdist : l.Pairwise (fun a b => a.id ≠ b.id)) (item : SyncQueueItem)
    (hmem : item ∈ l) (s : String) (hid : item.id = s) :
    l.find? (fun it => it.id == s) = some item := by
  subst hid
  induction l with
  | nil => cases hmem
  | cons x xs ih =>
    rcases List.mem_cons.mp hmem with rfl | hmem'
    · rw [List.find?_cons_of_pos]
      simp
    · have hx : x.id ≠ item.id := (List.pairwise_cons.mp hdist).1 item hmem'
      rw [List.find?_cons_of_neg]
      · exact ih (List.pairwise_cons.mp hdist).2 hmem'
      · simp [hx]

/-- Closed form of `handleBatchFailure` on a batch of pairwise-distinct
ids all below the retry maximum: the counters, the appended error
entries, and the rewritten queue. -/
theorem handleBatchFailure_spec (now : Nat) (msg : String) :
    ∀ (batch : List SyncQueueItem) (acc : RunAcc),
      batch.Pairwise (fun a b => a.id ≠ b.id) →
      (∀ item ∈ batch, item.retry_count + 1 < 3) →
      (handleBatchFailure now batch msg acc).errors =
        acc.errors ++ batch.map (fun item =>
          { task_id := item.task_id, operation := opString item.operation,
            error := msg, timestamp := now }) ∧
      (handleBatchFailure now batch msg acc).failedItems
        = acc.failedItems + batch.length ∧
      (handleBatchFailure now batch msg acc).syncedItems = acc.syncedItems ∧
      (handleBatchFailure now batch msg acc).db.tasks = acc.db.tasks ∧
      (handleBatchFailure now batch msg acc).db.sync_queue =
        acc.db.sync_queue.map (fun q =>
          match batch.find? (fun it => it.id == q.id) with
          | some it => { q with retry_count := it.retry_count + 1,
                                error_message := some (jsOr msg "Unknown error") }
          | none => q) := by
  intro batch
  induction batch with
  | nil =>
    intro acc _ _
    refine ⟨by simp [handleBatchFailure], by simp [handleBatchFailure],
            by simp [handleBatchFailure], by simp [handleBatchFailure], ?_⟩
    simp [handleBatchFailure, List.find?]
  | cons item rest ih =>
    intro acc hdist hmax
    have hstep : handleBatchFailure now (item :: rest) msg acc =
        handleBatchFailure now rest msg
          { acc with db := handleSyncError acc.db item msg,
                     failedItems := acc.failedItems + 1,
                     errors := acc.errors ++ [{ task_id := item.task_id,
                                                operation := opString item.operation,
                                                error := msg, timestamp := now }] } := by
      unfold handleBatchFailure
      rw [List.foldl_cons]
    obtain ⟨hd1, hd2⟩ := List.pairwise_cons.mp hdist
    have hm1 := hmax item (List.mem_cons_self _ _)
    have hmr : ∀ it ∈ rest, it.retry_count + 1 < 3 :=
      fun it hit => hmax it (List.mem_cons_of_mem _ hit)
    obtain ⟨ihe, ihf, ihs, iht, ihq⟩ := ih
      { acc with db := handleSyncError acc.db item msg,
                 failedItems := acc.failedItems + 1,
                 errors := acc.errors ++ [{ task_id := item.task_id,
                                            operation := opString item.operation,
                                            error := msg, timestamp := now }] }
      hd2 hmr
    rw [hstep]
    refine ⟨?_, ?_, ?_, ?_, ?_⟩
    · rw [ihe]
      simp
    · rw [ihf]
      simp [Nat.add_assoc, Nat.add_comm 1 rest.length]
    · rw [ihs]
    · rw [iht, handleSyncError_of_lt acc.db item msg hm1]
    · rw [ihq, handleSyncError_of_lt acc.db item msg hm1]
      show (acc.db.sync_queue.map (bumpRetryRow item (jsOr msg "Unknown error"))).map _
        = _
      rw [List.map_map]
      apply List.map_congr_left
      intro q _
      by_cases hq : q.id = item.id
      · have hbump : bumpRetryRow item (jsOr msg "Unknown error") q =
            { q with retry_count := item.retry_count + 1,
                     error_message := some (jsOr msg "Unknown error") } := by
          simp [bumpRetryRow, hq]
        have hfind : (item :: rest).find? (fun it => it.id == q.id) = some item :=
          List.find?_cons_of_pos _ (by simp [hq])
        have hnone : rest.find? (fun it => it.id == q.id) = none := by
          rw [List.find?_eq_none]
          intro x hx
          simp
          rw [hq]
          exact Ne.symm (hd1 x hx)
        simp [hbump, hfind, hnone]
      · have hbump : bumpRetryRow item (jsOr msg "Unknown error") q = q := by
          simp [bumpRetryRow, hq]
        have hfind : (item :: rest).find? (fun it => it.id == q.id)
            = rest.find? (fun it => it.id == q.id) :=
          List.find?_cons_of_neg _ (by simp; exact fun h => hq h.symm)
        simp only [Function.comp_apply, hbump, hfind]

/-- The queue-row update of `handleSyncError` never changes a row id. -/
theorem bumpRetryRow_id (item : SyncQueueItem) (m : String) (q : SyncQueueItem) :
    (bumpRetryRow item m q).id = q.id := by
  unfold bumpRetryRow
  split <;> rfl

/-- Rows whose id differs from the failed item pass through
`handleSyncError` untouched, in both retry branches. -/
theorem handleSyncError_mem_of_ne (db : DBState) (item : SyncQueueItem)
    (msg : String) (r : SyncQueueItem) (hne : r.id ≠ item.id) :
    r ∈ (handleSyncError db item msg).sync_queue ↔ r ∈ db.sync_queue := by
  by_cases hr : item.retry_count + 1 ≥ 3
  · rw [handleSyncError_of_ge db item msg hr]
    constructor
    · intro h
      obtain ⟨h1, _⟩ := List.mem_filter.mp h
      obtain ⟨q0, hq0, heq⟩ := List.mem_map.mp h1
      by_cases hid : q0.id = item.id
      · exfalso
        apply hne
        rw [← heq, bumpRetryRow_id, hid]
      · have hq0r : q0 = r := by
          rw [show bumpRetryRow item (jsOr msg "Unknown error") q0 = q0 from by
            simp [bumpRetryRow, hid]] at heq
          exact heq
        exact hq0r ▸ hq0
    · intro h
      refine List.mem_filter.mpr ⟨?_, by simp [hne]⟩
      refine List.mem_map.mpr ⟨r, h, ?_⟩
      simp [bumpRetryRow, hne]
  · rw [handleSyncError_of_lt db item msg (by omega)]
    constructor
    · intro h
      obtain ⟨q0, hq0, heq⟩ := List.mem_map.mp h
      by_cases hid : q0.id = item.id
      · exfalso
        apply hne
        rw [← heq, bumpRetryRow_id, hid]
      · have hq0r : q0 = r := by
          rw [show bumpRetryRow item (jsOr msg "Unknown error") q0 = q0 from by
            simp [bumpRetryRow, hid]] at heq
          exact heq
        exact hq0r ▸ hq0
    · intro h
      refine List.mem_map.mpr ⟨r, h, ?_⟩
      simp [bumpRetryRow, hne]

/-- If no queue row carries id `x`, none does after `handleSyncError`
(row updates preserve ids, deletions only remove rows). -/
theorem handleSyncError_no_id (db : DBState) (item : SyncQueueItem) (msg : String)
    (x : String) (h : ∀ r ∈ db.sync_queue, r.id ≠ x) :
    ∀ r ∈ (handleSyncError db item msg).sync_queue, r.id ≠ x := by
  by_cases hr : item.retry_count + 1 ≥ 3
  · rw [handleSyncError_of_ge db item msg hr]
    intro r hrm
    obtain ⟨h1, _⟩ := List.mem_filter.mp hrm
    obtain ⟨q0, hq0, heq⟩ := List.mem_map.mp h1
    rw [← heq, bumpRetryRow_id]
    exact h q0 hq0
  · rw [handleSyncError_of_lt db item msg (by omega)]
    intro r hrm
    obtain ⟨q0, hq0, heq⟩ := List.mem_map.mp hrm
    rw [← heq, bumpRetryRow_id]
    exact h q0 hq0

/-- The counters and error entries of `handleBatchFailure`, for every
batch without restriction: one failure and one error entry per item,
synced counter untouched. -/
theorem handleBatchFailure_counts (now : Nat) (msg : String) :
    ∀ (batch : List SyncQueueItem) (acc : RunAcc),
      (handleBatchFailure now batch msg acc).errors =
        acc.errors ++ batch.map (fun item =>
          { task_id := item.task_id, operation := opString item.operation,
            error := msg, timestamp := now }) ∧
      (handleBatchFailure now batch msg acc).failedItems
        = acc.failedItems + batch.length ∧
      (handleBatchFailure now batch msg acc).syncedItems = acc.syncedItems := by
  intro batch
  induction batch with
  | nil =>
    intro acc
    exact ⟨by simp [handleBatchFailure], by simp [handleBatchFailure],
           by simp [handleBatchFailure]⟩
  | cons item rest ih =>
    intro acc
    have hstep : handleBatchFailure now (item :: rest) msg acc =
        handleBatchFailure now rest msg
          { acc with db := handleSyncError acc.db item msg,
                     failedItems := acc.failedItems + 1,
                     errors := acc.errors ++ [{ task_id := item.task_id,
                                                operation := opString item.operation,
                                                error := msg, timestamp := now }] } := by
      unfold handleBatchFailure
      rw [List.foldl_cons]
    obtain ⟨ihe, ihf, ihs⟩ := ih
      { acc with db := handleSyncError acc.db item msg,
                 failedItems := acc.failedItems + 1,
                 errors := acc.errors ++ [{ task_id := item.task_id,
                                            operation := opString item.operation,
                                            error := msg, timestamp := now }] }
    rw [hstep]
    refine ⟨?_, ?_, ?_⟩
    · rw [ihe]
      simp
    · rw [ihf]
      simp [Nat.add_assoc, Nat.add_comm 1 rest.length]
    · rw [ihs]

/-- Rows matching no batch item pass through `handleBatchFailure`
untouched. -/
theorem handleBatchFailure_mem_of_ne (now : Nat) (msg : String) :
    ∀ (batch : List SyncQueueItem) (acc : RunAcc) (r : SyncQueueItem),
      (∀ item ∈ batch, item.id ≠ r.id) →
      (r ∈ (handleBatchFailure now batch msg acc).db.sync_queue ↔
        r ∈ acc.db.sync_queue) := by
  intro batch
  induction batch with
  | nil => intro acc r _; exact Iff.rfl
  | cons item rest ih =>
    intro acc r hne
    have hstep : handleBatchFailure now (item :: rest) msg acc =
        handleBatchFailure now rest msg
          { acc with db := handleSyncError acc.db item msg,
                     failedItems := acc.failedItems + 1,
                     errors := acc.errors ++ [{ task_id := item.task_id,
                                                operation := opString item.operation,
                                                error := msg, timestamp := now }] } := by
      unfold handleBatchFailure
      rw [List.foldl_cons]
    rw [hstep]
    rw [ih _ r (fun it hit => hne it (List.mem_cons_of_mem _ hit))]
    exact handleSyncError_mem_of_ne acc.db item msg r
      (fun h => hne item (List.mem_cons_self _ _) h.symm)

/-- If no queue row carries id `x`, none does after a whole
`handleBatchFailure` pass. -/
theorem handleBatchFailure_no_id (now : Nat) (msg : String) (x : String) :
    ∀ (batch : List SyncQueueItem) (acc : RunAcc),
      (∀ r ∈ acc.db.sync_queue, r.id ≠ x) →
      ∀ r ∈ (handleBatchFailure now batch msg acc).db.sync_queue, r.id ≠ x := by
  intro batch
  induction batch with
  | nil => intro acc h; exact h
  | cons item rest ih =>
    intro acc h
    have hstep : handleBatchFailure now (item :: rest) msg acc =
        handleBatchFailure now rest msg
          { acc with db := handleSyncError acc.db item msg,
                     failedItems := acc.failedItems + 1,
                     errors := acc.errors ++ [{ task_id := item.task_id,
                                                operation := opString item.operation,
                                                error := msg, timestamp := now }] } := by
      unfold handleBatchFailure
      rw [List.foldl_cons]
    rw [hstep]
    exact ih _ (handleSyncError_no_id acc.db item msg x h)

/-- Per-item effect of `handleBatchFailure` on the queue rows of the
batch items (for batches of pairwise-distinct row ids): a row still
below the retry maximum after the bump is stored bumped by exactly one,
a row reaching the maximum is purged. -/
theorem handleBatchFailure_hit (now : Nat) (msg : String) :
    ∀ (batch : List SyncQueueItem) (acc : RunAcc),
      batch.Pairwise (fun a b => a.id ≠ b.id) →
      ∀ q ∈ acc.db.sync_queue, ∀ item ∈ batch, item.id = q.id →
        item.retry_count = q.retry_count →
        (q.retry_count + 1 < 3 →
          { q with retry_count := q.retry_count + 1,
                   error_message := some (jsOr msg "Unknown error") }
            ∈ (handleBatchFailure now batch msg acc).db.sync_queue) ∧
        (q.retry_count + 1 ≥ 3 →
          ∀ q' ∈ (handleBatchFailure now batch msg acc).db.sync_queue,
            q'.id ≠ q.id) := by
  intro batch
  induction batch with
  | nil =>
    intro acc _ q _ item hitem hid hrc
    exact absurd hitem (List.not_mem_nil item)
  | cons hd rest ih =>
    intro acc hdist q hq item hitem hid hrc
    obtain ⟨hd1, hd2⟩ := List.pairwise_cons.mp hdist
    have hstep : handleBatchFailure now (hd :: rest) msg acc =
        handleBatchFailure now rest msg
          { acc with db := handleSyncError acc.db hd msg,
                     failedItems := acc.failedItems + 1,
                     errors := acc.errors ++ [{ task_id := hd.task_id,
                                                operation := opString hd.operation,
                                                error := msg, timestamp := now }] } := by
      unfold handleBatchFailure
      rw [List.foldl_cons]
    rcases List.mem_cons.mp hitem with rfl | hmem
    · constructor
      · intro hlt
        rw [hstep]
        have hframe := handleBatchFailure_mem_of_ne now msg rest
          { acc with db := handleSyncError acc.db item msg,
                     failedItems := acc.failedItems + 1,
                     errors := acc.errors ++ [{ task_id := item.task_id,
                                                operation := opString item.operation,
                                                error := msg, timestamp := now }] }
          { q with retry_count := q.retry_count + 1,
                   error_message := some (jsOr msg "Unknown error") }
          (fun it hit hcontra => hd1 it hit (hid.trans hcontra.symm))
        rw [hframe]
        show { q with retry_count := q.retry_count + 1,
                      error_message := some (jsOr msg "Unknown error") }
          ∈ (handleSyncError acc.db item msg).sync_queue
        rw [handleSyncError_of_lt acc.db item msg (by omega)]
        refine List.mem_map.mpr ⟨q, hq, ?_⟩
        simp [bumpRetryRow, hid, hrc]
      · intro hge
        rw [hstep]
        refine handleBatchFailure_no_id now msg q.id rest _ ?_
        intro r hr
        have hr' : r ∈ ((handleSyncError acc.db item msg).sync_queue) := hr
        rw [handleSyncError_of_ge acc.db item msg (by omega)] at hr'
        have h2 := (List.mem_filter.mp hr').2
        rw [← hid]
        simpa using h2
    · have hqne : q.id ≠ hd.id :=
        fun hcontra => hd1 item hmem (hcontra.symm.trans hid.symm)
      have hq2 : q ∈ (handleSyncError acc.db hd msg).sync_queue :=
        (handleSyncError_mem_of_ne acc.db hd msg q hqne).mpr hq
      rw [hstep]
      exact ih _ hd2 q hq2 item hmem hid hrc

/-- C3: a wholesale transport failure on a batch of N items appends
exactly N error entries to the result and counts exactly N failures (the
synced counter is untouched) — for every batch; each batch item runs the
failure handler on its queue row: the retry counter is advanced by
exactly one and kept when still below the maximum of 3, and the row is
purged when the advance reaches the maximum (the recordFailure semantics
of C4); rows outside the batch are untouched (the per-row conjuncts are
stated for batches of pairwise-distinct row ids, which the queue primary
key guarantees); and the run proceeds to every subsequent batch. -/
theorem transport_failure_batch (now : Nat) (batch : List SyncQueueItem)
    (msg : String) (acc : RunAcc) :
    (handleBatchFailure now batch msg acc).errors.length
      = acc.errors.length + batch.length ∧
    (handleBatchFailure now batch msg acc).errors =
      acc.errors ++ batch.map (fun item =>
        { task_id := item.task_id, operation := opString item.operation,
          error := msg, timestamp := now }) ∧
    (handleBatchFailure now batch msg acc).failedItems
      = acc.failedItems + batch.length ∧
    (handleBatchFailure now batch msg acc).syncedItems = acc.syncedItems ∧
    (batch.Pairwise (fun a b => a.id ≠ b.id) →
      ∀ q ∈ acc.db.sync_queue, ∀ item ∈ batch, item.id = q.id →
        item.retry_count = q.retry_count →
        (q.retry_count + 1 < 3 →
          { q with retry_count := q.retry_count + 1,
                   error_message := some (jsOr msg "Unknown error") }
            ∈ (handleBatchFailure now batch msg acc).db.sync_queue) ∧
        (q.retry_count + 1 ≥ 3 →
          ∀ q' ∈ (handleBatchFailure now batch msg acc).db.sync_queue,
            q'.id ≠ q.id)) ∧
    (∀ q ∈ acc.db.sync_queue, (∀ item ∈ batch, item.id ≠ q.id) →
      q ∈ (handleBatchFailure now batch msg acc).db.sync_queue) ∧
    (∀ (i : Nat) (acc₀ : RunAcc) (rest : List (List SyncQueueItem))
       (outcomes : Nat → BatchOutcome),
      outcomes i = BatchOutcome.transportError msg →
      runBatches now outcomes i acc₀ (batch :: rest) =
        runBatches now outcomes (i + 1) (handleBatchFailure now batch msg acc₀) rest) := by
  obtain ⟨he, hf, hs⟩ := handleBatchFailure_counts now msg batch acc
  refine ⟨?_, he, hf, hs, ?_, ?_, ?_⟩
  · rw [he]
    simp
  · exact handleBatchFailure_hit now msg batch acc
  · intro q hq hne
    exact (handleBatchFailure_mem_of_ne now msg batch acc q hne).mpr hq
  · intro i acc₀ rest outcomes houtcome
    have hstep : runBatches now outcomes i acc₀ (batch :: rest) =
        runBatches now outcomes (i + 1)
          (match outcomes i with
           | BatchOutcome.transportError m => handleBatchFailure now batch m acc₀
           | BatchOutcome.response resp =>
             match applyBatchItems now batch acc₀ (processResponseItems acc₀.db resp) with
             | (acc'', none) => acc''
             | (acc'', some e) => handleBatchFailure now batch e acc'') rest := rfl
    rw [hstep, houtcome]

/-- C3 witness: a transport failure on the one-item batch of `dbA`
(retry count 0) adds one failure and one error entry and stores the row
bumped by one; on the one-item batch of `dbAMax` (retry count 2) the row
is purged. -/
theorem transport_failure_batch_witness :
    (handleBatchFailure 7 [queueItemA] "net down"
      { db := dbA, syncedItems := 0, failedItems := 0, errors := [] }).failedItems
      = 0 + [queueItemA].length ∧
    (handleBatchFailure 7 [queueItemA] "net down"
      { db := dbA, syncedItems := 0, failedItems := 0, errors := [] }).errors =
      [] ++ [queueItemA].map (fun item =>
        { task_id := item.task_id, operation := opString item.operation,
          error := "net down", timestamp := 7 }) ∧
    ({ queueItemA with retry_count := queueItemA.retry_count + 1,
                       error_message := some (jsOr "net down" "Unknown error") }
      ∈ (handleBatchFailure 7 [queueItemA] "net down"
          { db := dbA, syncedItems := 0, failedItems := 0,
            errors := [] }).db.sync_queue) ∧
    queueItemAMax ∉ (handleBatchFailure 7 [queueItemAMax] "net down"
      { db := dbAMax, syncedItems := 0, failedItems := 0,
        errors := [] }).db.sync_queue :=
  ⟨(transport_failure_batch 7 [queueItemA] "net down" ⟨dbA, 0, 0, []⟩).2.2.1,
   (transport_failure_batch 7 [queueItemA] "net down" ⟨dbA, 0, 0, []⟩).2.1,
   ((transport_failure_batch 7 [queueItemA] "net down" ⟨dbA, 0, 0, []⟩).2.2.2.2.1
      (by decide) queueItemA (by decide) queueItemA (by decide) rfl rfl).1
      (by decide),
   fun hmem =>
     ((transport_failure_batch 7 [queueItemAMax] "net down"
          ⟨dbAMax, 0, 0, []⟩).2.2.2.2.1
        (by decide) queueItemAMax (by decide) queueItemAMax (by decide) rfl rfl).2
        (by decide) queueItemAMax hmem rfl⟩

/-- With positive chunk size and enough fuel, the chunks flatten back to
the original list (the batching loop loses and reorders nothing). -/
theorem chunksAux_flatten {α : Type _} (n : Nat) (hn : 0 < n) :
    ∀ (fuel : Nat) (l : List α), l.length ≤ fuel →
      (chunksAux n fuel l).flatten = l := by
  intro fuel
  induction fuel with
  | zero =>
    intro l hl
    have hnil : l = [] := List.length_eq_zero.mp (Nat.le_zero.mp hl)
    subst hnil
    rfl
  | succ fuel ih =>
    intro l hl
    cases l with
    | nil => rfl
    | cons x xs =>
      show ((x :: xs).take n :: chunksAux n fuel ((x :: xs).drop n)).flatten = x :: xs
      have hdrop : ((x :: xs).drop n).length ≤ fuel := by
        simp only [List.length_drop, List.length_cons]
        simp only [List.length_cons] at hl
        omega
      rw [List.flatten_cons, ih _ hdrop, List.take_append_drop]

/-- Every chunk produced by the batching loop has at most `n` elements. -/
theorem chunksAux_length_le {α : Type _} (n : Nat) :
    ∀ (fuel : Nat) (l : List α) (c : List α), c ∈ chunksAux n fuel l →
      c.length ≤ n := by
  intro fuel
  induction fuel with
  | zero =>
    intro l c hc
    cases l with
    | nil => exact absurd hc (List.not_mem_nil c)
    | cons x xs => exact absurd hc (List.not_mem_nil c)
  | succ fuel ih =>
    intro l c hc
    cases l with
    | nil => exact absurd hc (List.not_mem_nil c)
    | cons x xs =>
      have hc' : c ∈ (x :: xs).take n :: chunksAux n fuel ((x :: xs).drop n) := hc
      rcases List.mem_cons.mp hc' with rfl | h
      · rw [List.length_take]
        exact Nat.min_le_left _ _
      · exact ih _ _ h

/-- C6: the pending read returns exactly the queue rows with retry
counter below the maximum of 3, ordered by enqueue time ascending, and
the batching partitions them into consecutive chunks of at most the
batch size whose concatenation restores the read order. -/
theorem sync_reads_pending_in_order (db : DBState) (n : Nat) (hn : 0 < n) :
    (∀ q, q ∈ pendingItems db ↔ q ∈ db.sync_queue ∧ q.retry_count < 3) ∧
    (pendingItems db).Pairwise (fun a b => a.created_at ≤ b.created_at) ∧
    (pendingItems db).Perm (db.sync_queue.filter (fun q => q.retry_count < 3)) ∧
    (chunkList n (pendingItems db)).flatten = pendingItems db ∧
    (∀ c ∈ chunkList n (pendingItems db), c.length ≤ n) := by
  refine ⟨?_, ?_, ?_, ?_, ?_⟩
  · intro q
    unfold pendingItems
    rw [List.mem_insertionSort]
    simp [List.mem_filter]
  · exact @List.sorted_insertionSort SyncQueueItem
      (fun a b => a.created_at ≤ b.created_at) _
      ⟨fun a b => Nat.le_total _ _⟩ ⟨fun a b c => Nat.le_trans⟩
      (db.sync_queue.filter (fun q => q.retry_count < 3))
  · exact List.perm_insertionSort _ _
  · exact chunksAux_flatten n hn (pendingItems db).length (pendingItems db)
      (Nat.le_refl _)
  · intro c hc
    exact chunksAux_length_le n (pendingItems db).length (pendingItems db) c hc

/-- C6 witness: at the concrete database `dbA` with batch size 2. -/
theorem sync_reads_pending_in_order_witness :
    (queueItemA ∈ pendingItems dbA ↔
      queueItemA ∈ dbA.sync_queue ∧ queueItemA.retry_count < 3) ∧
    (chunkList 2 (pendingItems dbA)).flatten = pendingItems dbA :=
  ⟨(sync_reads_pending_in_order dbA 2 (by decide)).1 queueItemA,
   (sync_reads_pending_in_order dbA 2 (by decide)).2.2.2.1⟩

/-- C9: applying a success verdict (`updateSyncStatus` with status
`synced`) rewrites only `sync_status`, `last_synced_at` and — when the
response data carries a non-empty one (the JS truthiness guard) —
`server_id` on the matching task row, leaves every other row untouched
and every content field (title, description, completed, deletion flag)
unchanged, and deletes every queue row whose `task_id` matches that
task, not only the single confirmed item. -/
theorem updateSyncStatus_frame (db : DBState) (taskId : String)
    (serverData : Option Task) (now : Nat) :
    (updateSyncStatus db taskId SyncStatus.synced serverData now).sync_queue
      = db.sync_queue.filter (fun q => q.task_id != taskId) ∧
    (updateSyncStatus db taskId SyncStatus.synced serverData now).tasks.length
      = db.tasks.length ∧
    (∀ t ∈ db.tasks, t.id ≠ taskId →
      t ∈ (updateSyncStatus db taskId SyncStatus.synced serverData now).tasks) ∧
    (∀ t ∈ db.tasks, t.id = taskId →
      { t with sync_status := SyncStatus.synced, last_synced_at := some now,
               server_id :=
                 match serverData with
                 | some sd =>
                   (match sd.server_id with
                    | some sid => if sid = "" then t.server_id else some sid
                    | none => t.server_id)
                 | none => t.server_id }
        ∈ (updateSyncStatus db taskId SyncStatus.synced serverData now).tasks) := by
  refine ⟨?_, ?_, ?_, ?_⟩
  · show (if SyncStatus.synced = SyncStatus.synced then
        db.sync_queue.filter (fun q => q.task_id != taskId)
      else db.sync_queue) = db.sync_queue.filter (fun q => q.task_id != taskId)
    rw [if_pos rfl]
  · show (db.tasks.map (updSyncTaskRow taskId SyncStatus.synced serverData now)).length
      = db.tasks.length
    rw [List.length_map]
  · intro t ht hne
    refine List.mem_map.mpr ⟨t, ht, ?_⟩
    simp [updSyncTaskRow, hne]
  · intro t ht hid
    refine List.mem_map.mpr ⟨t, ht, ?_⟩
    cases serverData with
    | none => simp [updSyncTaskRow, hid]
    | some sd =>
      cases hsd : sd.server_id with
      | none => simp [updSyncTaskRow, hid, hsd]
      | some sid =>
        by_cases hempty : sid = ""
        · simp [updSyncTaskRow, hid, hsd, hempty]
        · simp [updSyncTaskRow, hid, hsd, hempty]

/-- C9 witness: at the database of the conflict scenario, once with the
server data carrying the non-empty `server_id` `srv_1` (written) and
once with an empty-string `server_id` (skipped by the truthiness
guard). -/
theorem updateSyncStatus_frame_witness :
    (updateSyncStatus dbA "task_a" SyncStatus.synced (some taskAServer) 77).sync_queue
      = dbA.sync_queue.filter (fun q => q.task_id != "task_a") ∧
    ({ taskA with sync_status := SyncStatus.synced, last_synced_at := some 77,
                  server_id := some "srv_1" }
      ∈ (updateSyncStatus dbA "task_a" SyncStatus.synced (some taskAServer) 77).tasks) ∧
    ({ taskA with sync_status := SyncStatus.synced, last_synced_at := some 77,
                  server_id := none }
      ∈ (updateSyncStatus dbA "task_a" SyncStatus.synced
          (some taskAServerEmptyId) 77).tasks) :=
  ⟨(updateSyncStatus_frame dbA "task_a" (some taskAServer) 77).1,
   (updateSyncStatus_frame dbA "task_a" (some taskAServer) 77).2.2.2 taskA
      (by decide) rfl,
   (updateSyncStatus_frame dbA "task_a" (some taskAServerEmptyId) 77).2.2.2 taskA
      (by decide) rfl⟩

/-- C8: every task mutation marks the task `pending`, stamps `updated_at`
with the mutation time, and appends exactly one queue item of the
matching operation kind whose payload snapshots the task; `deleteTask`
only sets the deletion flag and never removes the row. -/
theorem task_mutations_enqueue (db : DBState) (input : TaskInput)
    (updates : TaskUpdates) (tid qid : String) (now : Nat) :
    ((createTask db input tid qid now).2.sync_status = SyncStatus.pending ∧
     (createTask db input tid qid now).2.updated_at = now ∧
     (createTask db input tid qid now).1.tasks
        = db.tasks ++ [(createTask db input tid qid now).2] ∧
     (createTask db input tid qid now).1.sync_queue
        = db.sync_queue ++ [{ id := qid, task_id := tid,
                              operation := Operation.create,
                              data := (createTask db input tid qid now).2,
                              created_at := now, retry_count := defaultRetryCount,
                              error_message := none }]) ∧
    (∀ existing, getTask db tid = some existing →
      ∃ u, (updateTask db tid updates qid now).2 = some u ∧
        u.sync_status = SyncStatus.pending ∧
        u.updated_at = now ∧
        (updateTask db tid updates qid now).1.sync_queue
          = db.sync_queue ++ [{ id := qid, task_id := tid,
                                operation := Operation.update, data := u,
                                created_at := now, retry_count := defaultRetryCount,
                                error_message := none }] ∧
        (updateTask db tid updates qid now).1.tasks.length = db.tasks.length ∧
        (∀ t ∈ db.tasks, t.id = tid →
          { t with title := u.title, description := u.description,
                   completed := u.completed, updated_at := now,
                   sync_status := SyncStatus.pending }
            ∈ (updateTask db tid updates qid now).1.tasks)) ∧
    (∀ task, getTask db tid = some task →
      (deleteTask db tid qid now).2 = true ∧
      (deleteTask db tid qid now).1.sync_queue
        = db.sync_queue ++ [{ id := qid, task_id := tid,
                              operation := Operation.delete,
                              data := { task with is_deleted := true },
                              created_at := now, retry_count := defaultRetryCount,
                              error_message := none }] ∧
      (deleteTask db tid qid now).1.tasks.length = db.tasks.length ∧
      (∀ t ∈ db.tasks, t.id = tid →
        { t with is_deleted := true, updated_at := now,
                 sync_status := SyncStatus.pending }
          ∈ (deleteTask db tid qid now).1.tasks)) := by
  refine ⟨⟨rfl, rfl, rfl, rfl⟩, ?_, ?_⟩
  · intro existing hex
    refine ⟨{ existing with
        title := updates.title.getD existing.title,
        description := match updates.description with
                       | some d => some d
                       | none => existing.description,
        completed := updates.completed.getD existing.completed,
        updated_at := now,
        sync_status := SyncStatus.pending }, ?_, rfl, rfl, ?_, ?_, ?_⟩
    · simp only [updateTask, hex]
    · simp only [updateTask, hex]
    · simp only [updateTask, hex]
      rw [List.length_map]
    · intro t ht hid
      simp only [updateTask, hex]
      refine List.mem_map.mpr ⟨t, ht, ?_⟩
      simp [hid]
  · intro task hex
    refine ⟨?_, ?_, ?_, ?_⟩
    · simp only [deleteTask, hex]
    · simp only [deleteTask, hex]
    · simp only [deleteTask, hex]
      rw [List.length_map]
    · intro t ht hid
      simp only [deleteTask, hex]
      refine List.mem_map.mpr ⟨t, ht, ?_⟩
      simp [hid]

/-- C8 witness: a create on the empty database and an update and a
delete of `taskA` in `dbA`. -/
theorem task_mutations_enqueue_witness :
    (createTask emptyDb { title := "T", description := none, completed := none }
      "t2" "q2" 50).2.sync_status = SyncStatus.pending ∧
    (deleteTask dbA "task_a" "q3" 60).2 = true :=
  ⟨(task_mutations_enqueue emptyDb
      { title := "T", description := none, completed := none }
      { title := none, description := none, completed := none } "t2" "q2" 50).1.1,
   ((task_mutations_enqueue dbA
      { title := "T", description := none, completed := none }
      { title := none, description := none, completed := none } "task_a" "q3" 60).2.2
      taskA (by decide)).1⟩

end SyncSpec
